import Mathlib

/-!
Shallow embedding of src/voctodeck.py, a StreamDeck control panel for the
voctomix video mixer.  The mutable state of the program is the `selected`
flag of each of the 15 statically declared buttons (BUTTONS, lines 130-148);
the state sources are RecvThread (status-socket lines, lines 237-264),
TickThread (shell-predicate poller, lines 170-186) and I3Thread (workspace
poller, lines 189-212).  Machine state is modelled as `Sel := Fin 15 → Bool`
(button index to selected flag); each thread's per-iteration body is a pure
step function on that state.  A Python exception escaping a thread's body is
modelled by an `err` outcome carrying the state at the raise point.
-/

namespace Voctodeck

/-- The semantic role of a button: one constructor per Button subclass of
voctodeck.py (SceneButton line 57, StreamButton line 85, AudioButton line 71,
ExecButton line 98, I3workspaceButton line 108, ExecUpdateButton line 121,
plain Button line 45). -/
inductive ButtonKind where
  | scene (layout : String) (inputs : List String)
  | stream (state : String) (blank : Bool)
  | audio (channel : String)
  | exec (cmd : String)
  | i3ws (workspace : Nat)
  | execUpdate (cmd update : String)
  | plain
deriving DecidableEq

/-- A declared button: its label and semantic role. -/
structure ButtonSpec where
  label : String
  kind : ButtonKind
deriving DecidableEq

/-- The static BUTTONS list of voctodeck.py lines 130-148, in declaration
order (which is also key-index order). -/
def BUTTONS : List ButtonSpec := [
  ⟨"PC\nFULL", .scene "fullscreen" ["slides", "cam"]⟩,
  ⟨"CAM\nFULL", .scene "fullscreen" ["cam", "slides"]⟩,
  ⟨"Picture\nin\nPicture", .scene "picture_in_picture" ["slides", "cam"]⟩,
  ⟨"STREAM\nLIVE", .stream "live" false⟩,
  ⟨"WP7", .exec "i3-msg workspace 7"⟩,
  ⟨"PC\nAUDIO", .audio "slides"⟩,
  ⟨"CAM\nAUDIO", .audio "cam"⟩,
  ⟨"Side-by-\nside\npreview", .scene "side_by_side_preview" ["slides", "cam"]⟩,
  ⟨"STREAM\nPAUSE", .stream "pause" true⟩,
  ⟨"YK", .execUpdate "systemctl --user restart yubikey-agent"
      "systemctl --user status yubikey-agent >/dev/null"⟩,
  ⟨"PC\nRESTART", .plain⟩,
  ⟨"CAM\nRESTART", .plain⟩,
  ⟨"Side-by-\nside\nequal", .scene "side_by_side_equal" ["slides", "cam"]⟩,
  ⟨"NO\nSTREAM", .stream "nostream" true⟩,
  ⟨"MIC\nMUTE", .execUpdate "./micmute.sh"
      "amixer get Digital | grep -Fq \"Capture 0 [\""⟩]

def defaultButton : ButtonSpec := ⟨"", .plain⟩

/-- The button at a key index (BUTTONS[key] for key < 15). -/
def button (i : Fin 15) : ButtonSpec := BUTTONS.getD i.1 defaultButton

/-- SCENE_BUTTONS (line 55): each SceneButton registers itself under the key
tuple([layout] + inputs) (line 63); here the registry maps that key to the
button's index in BUTTONS. -/
def sceneRegistry : List (List String × Fin 15) :=
  BUTTONS.enum.filterMap fun e =>
    if h : e.1 < 15 then
      match e.2.kind with
      | .scene layout inputs => some (layout :: inputs, ⟨e.1, h⟩)
      | _ => none
    else none

/-- STREAM_BUTTONS (line 83): each StreamButton registers itself under
(state, blank) (line 92). -/
def streamRegistry : List ((String × Bool) × Fin 15) :=
  BUTTONS.enum.filterMap fun e =>
    if h : e.1 < 15 then
      match e.2.kind with
      | .stream state blank => some ((state, blank), ⟨e.1, h⟩)
      | _ => none
    else none

/-- AUDIO_BUTTONS (line 68): the list of AudioButton channels in declaration
order (line 77), paired with the button index. -/
def audioRegistry : List (String × Fin 15) :=
  BUTTONS.enum.filterMap fun e =>
    if h : e.1 < 15 then
      match e.2.kind with
      | .audio channel => some (channel, ⟨e.1, h⟩)
      | _ => none
    else none

/-- UPDATE_BUTTONS (line 119): ExecUpdateButton indices in declaration
order (line 127). -/
def updateRegistry : List (Fin 15) :=
  BUTTONS.enum.filterMap fun e =>
    if h : e.1 < 15 then
      match e.2.kind with
      | .execUpdate _ _ => some ⟨e.1, h⟩
      | _ => none
    else none

/-- I3BUTTONS (line 106): I3workspaceButton indices keyed by workspace
number (line 114).  No I3workspaceButton occurs in BUTTONS, so this registry
is empty in this program. -/
def i3Registry : List (Nat × Fin 15) :=
  BUTTONS.enum.filterMap fun e =>
    if h : e.1 < 15 then
      match e.2.kind with
      | .i3ws w => some (w, ⟨e.1, h⟩)
      | _ => none
    else none

/-- SCENE_BUTTONS.get(key) (line 249). -/
def sceneLookup (args : List String) : Option (Fin 15) :=
  match sceneRegistry.find? (fun e => e.1 == args) with
  | some e => some e.2
  | none => none

/-- STREAM_BUTTONS.get(key) (line 255). -/
def streamLookup (key : String × Bool) : Option (Fin 15) :=
  match streamRegistry.find? (fun e => e.1 == key) with
  | some e => some e.2
  | none => none

/-- I3BUTTONS.get(num) (line 201). -/
def i3Lookup (w : Nat) : Option (Fin 15) :=
  match i3Registry.find? (fun e => e.1 == w) with
  | some e => some e.2
  | none => none

/-- The mutable program state: the selected flag of each button. -/
abbrev Sel := Fin 15 → Bool

/-- Initial state: Button.selected defaults to False (line 46). -/
def initSel : Sel := fun _ => false

/-- Assignment btn.selected = b for the button at index i. -/
def setSel (st : Sel) (i : Fin 15) (b : Bool) : Sel :=
  fun j => if j = i then b else st j

def kindIsScene : ButtonKind → Bool
  | .scene _ _ => true
  | _ => false

def kindIsStream : ButtonKind → Bool
  | .stream _ _ => true
  | _ => false

/-- Whether index i holds a SceneButton. -/
def sceneIdx (i : Fin 15) : Bool := kindIsScene (button i).kind

/-- Whether index i holds a StreamButton. -/
def streamIdx (i : Fin 15) : Bool := kindIsStream (button i).kind

/-- The loop `for v in SCENE_BUTTONS.values(): v.selected = False`
(lines 247-248): every scene button's flag becomes False. -/
def clearScenes (st : Sel) : Sel :=
  fun i => if sceneIdx i then false else st i

/-- The loop `for v in STREAM_BUTTONS.values(): v.selected = False`
(lines 253-254). -/
def clearStreams (st : Sel) : Sel :=
  fun i => if streamIdx i then false else st i

/-- Python row.split(' ') on the character list: split on every single
space, keeping empty fields. -/
def splitChar (sep : Char) : List Char → List (List Char)
  | [] => [[]]
  | c :: rest =>
    let r := splitChar sep rest
    if c = sep then [] :: r
    else
      match r with
      | t :: ts => (c :: t) :: ts
      | [] => [[c]]

/-- data = row.split(' ') (line 245). -/
def splitSpace (s : String) : List String :=
  (splitChar ' ' s.toList).map fun cs => String.mk cs

def lbrace : Char := Char.ofNat 123

def rbrace : Char := Char.ofNat 125

def dquote : Char := Char.ofNat 34

def bslash : Char := Char.ofNat 92

def isWsChar (c : Char) : Bool := c = ' ' || c = '\t' || c = '\n' || c = '\r'

def skipWs : List Char → List Char
  | [] => []
  | c :: cs => if isWsChar c then skipWs cs else c :: cs

/-- Body of a JSON string after the opening quote: plain characters up to the
closing quote (escape sequences rejected; the protocol's channel names use
none). -/
def strBody : List Char → List Char → Option (String × List Char)
  | [], _ => none
  | c :: cs, acc =>
    if c = dquote then some (String.mk acc.reverse, cs)
    else if c = bslash then none
    else strBody cs (c :: acc)

def parseJString : List Char → Option (String × List Char)
  | c :: cs => if c = dquote then strBody cs [] else none
  | [] => none

/-- Longest digit run: (value, how many digits, rest). -/
def digitsAux : List Char → Nat → Nat → Nat × Nat × List Char
  | c :: cs, v, n =>
    if c.isDigit then digitsAux cs (v * 10 + (c.toNat - 48)) (n + 1)
    else (v, n, c :: cs)
  | [], v, n => (v, n, [])

def parseJInt : List Char → Option (Int × List Char)
  | c :: cs =>
    if c = '-' then
      match digitsAux cs 0 0 with
      | (v, _ + 1, rest) => some (-(v : Int), rest)
      | _ => none
    else
      match digitsAux (c :: cs) 0 0 with
      | (v, _ + 1, rest) => some ((v : Int), rest)
      | _ => none
  | [] => none

/-- Members of a flat JSON object "key": int, ... after the opening brace;
fuel bounds the recursion by the input length. -/
def parseMembers : Nat → List Char → List (String × Int) →
    Option (List (String × Int) × List Char)
  | 0, _, _ => none
  | fuel + 1, cs, acc =>
    match parseJString (skipWs cs) with
    | none => none
    | some (k, cs1) =>
      match skipWs cs1 with
      | c :: cs2 =>
        if c = ':' then
          match parseJInt (skipWs cs2) with
          | none => none
          | some (v, cs3) =>
            match skipWs cs3 with
            | c2 :: cs4 =>
              if c2 = ',' then parseMembers fuel cs4 ((k, v) :: acc)
              else if c2 = rbrace then some (((k, v) :: acc).reverse, cs4)
              else none
            | [] => none
        else none
      | [] => none

/-- json.loads (line 259) restricted to the protocol's payload shape: a flat
JSON object mapping channel names to integers.  none models a raised
json.JSONDecodeError (any payload that is not such an object). -/
def jsonLoadsFlat (s : String) : Option (List (String × Int)) :=
  match skipWs s.toList with
  | c :: cs =>
    if c = lbrace then
      match skipWs cs with
      | c2 :: cs2 =>
        if c2 = rbrace then
          if (skipWs cs2).isEmpty then some [] else none
        else
          match parseMembers (s.length + 1) (c2 :: cs2) [] with
          | some (d, rest) => if (skipWs rest).isEmpty then some d else none
          | none => none
      | [] => none
    else none
  | [] => none

/-- Python dict lookup p[k] over the parsed object: last binding wins, none
models a raised KeyError. -/
def dictGet (d : List (String × Int)) (k : String) : Option Int :=
  match d.reverse.find? (fun e => e.1 == k) with
  | some e => some e.2
  | none => none

/-- Outcome of one loop-body iteration of a thread: ok st2 when the body ran
to completion leaving state st2; err st2 when a Python exception escaped with
the state mutated up to st2 (the thread dies, nothing further runs). -/
inductive RecvOutcome where
  | ok (st : Sel)
  | err (st : Sel)

/-- The state an outcome carries. -/
def recvOut : RecvOutcome → Sel
  | .ok st => st
  | .err st => st

def isOk : RecvOutcome → Bool
  | .ok _ => true
  | .err _ => false

def isErr : RecvOutcome → Bool
  | .ok _ => false
  | .err _ => true

/-- Lines 246-251: clear every scene button, then select the one registered
for tuple(data[1:]) when there is one. -/
def compositeApply (st : Sel) (args : List String) : Sel :=
  match sceneLookup args with
  | some i => setSel (clearScenes st) i true
  | none => clearScenes st

/-- Lines 253-257: clear every stream button, then select the one registered
for the key when there is one. -/
def streamSelect (st : Sel) (key : String × Bool) : Sel :=
  match streamLookup key with
  | some i => setSel (clearStreams st) i true
  | none => clearStreams st

/-- Lines 252-257 given data = row.split(' '): the key is
(data[-1], data[1] == 'blank'); data[1] raises IndexError when the line has
fewer than two tokens, after the clears already ran. -/
def streamApply (st : Sel) (data : List String) : RecvOutcome :=
  if 2 ≤ data.length then
    .ok (streamSelect st (data.getLastD "", data.getD 1 "" == "blank"))
  else .err (clearStreams st)

/-- The loop of lines 260-261: each AudioButton in declaration order gets
b.selected = (p[b.channel] == 1); a missing channel raises KeyError after the
earlier buttons were already assigned. -/
def audioAssign (p : List (String × Int)) :
    List (String × Fin 15) → Sel → RecvOutcome
  | [], st => .ok st
  | e :: rest, st =>
    match dictGet p e.1 with
    | none => .err st
    | some v => audioAssign p rest (setSel st e.2 (v == 1))

/-- Lines 258-261: p = json.loads(row[13:]), raising on a bad payload, then
the AudioButton assignment loop. -/
def audioApply (st : Sel) (payload : String) : RecvOutcome :=
  match jsonLoadsFlat payload with
  | none => .err st
  | some p => audioAssign p audioRegistry st

/-- One row of RecvThread.run (lines 244-261): dispatch on data[0].  A row
matching no known prefix changes nothing (and is still followed by the
unconditional redraw). -/
def recvStep (st : Sel) (row : String) : RecvOutcome :=
  if (splitSpace row).headD "" = "composite_mode_and_video_status" then
    .ok (compositeApply st (splitSpace row).tail)
  else if (splitSpace row).headD "" = "stream_status" then
    streamApply st (splitSpace row)
  else if (splitSpace row).headD "" = "audio_status" then
    audioApply st (row.drop 13)
  else .ok st

/-- Lines 262-264: after every processed row, RecvThread prints and redraws
every key of the deck unconditionally; when the row raised, the loop died
and no redraw happened. -/
def recvLineRedraw (kc : Nat) (st : Sel) (row : String) : List Nat :=
  match recvStep st row with
  | .ok _ => List.range kc
  | .err _ => []

/-- One poll of TickThread.run (lines 177-181): for each update button in
order, old = btn.selected; btn.selected = (call(btn.update, shell=True) == 0);
needs_update |= btn.selected ^ old.  o i is whether button i's shell
predicate exited with status zero this tick.  Returns the new state and
needs_update (lines 182-185 then redraw the whole deck exactly when it is
true). -/
def tickStep (st : Sel) (o : Fin 15 → Bool) : Sel × Bool :=
  updateRegistry.foldl
    (fun acc i => (setSel acc.1 i (o i), acc.2 || (o i != acc.1 i))) (st, false)

/-- A run of successive TickThread polls: final state and how many polls
issued a redraw pass. -/
def tickRun (st : Sel) : List (Fin 15 → Bool) → Sel × Nat
  | [] => (st, 0)
  | o :: os =>
    ((tickRun (tickStep st o).1 os).1,
      (if (tickStep st o).2 then 1 else 0) + (tickRun (tickStep st o).1 os).2)

/-- How many positions of a boolean trace differ from their predecessor
(the first compared against b0). -/
def flipCount : Bool → List Bool → Nat
  | _, [] => 0
  | b, x :: xs => (if x = b then 0 else 1) + flipCount x xs

/-- One workspace entry of the parsed i3-msg get_workspaces output:
workspace['num'] and workspace['visible'] (lines 201, 205). -/
structure WsEntry where
  num : Nat
  visible : Bool
deriving DecidableEq

/-- The loop of lines 200-206: for each workspace, look up its button; when
registered, old = btn.selected; btn.selected = workspace['visible'];
needs_update |= btn.selected ^ old. -/
def i3Assign : List WsEntry → Sel → Bool → Sel × Bool
  | [], st, needs => (st, needs)
  | w :: ws, st, needs =>
    match i3Lookup w.num with
    | none => i3Assign ws st needs
    | some i => i3Assign ws (setSel st i w.visible) (needs || (w.visible != st i))

/-- One poll of I3Thread.run (lines 197-211): raw is the raw byte output of
i3-msg -t get_workspaces, parsed its json.loads value.  When raw equals
last_json the whole body is skipped; otherwise the assignment loop runs, a
full redraw is issued exactly when needs_update, and last_json becomes raw.
Returns (state, redraw issued, new last_json). -/
def i3Step (lastJson : Option String) (st : Sel) (raw : String)
    (parsed : List WsEntry) : Sel × Bool × Option String :=
  if some raw = lastJson then (st, false, lastJson)
  else
    let r := i3Assign parsed st false
    (r.1, r.2, some raw)

/-- update_key_image (lines 152-157): the BUTTONS[key] access behind the
render call; none models a raised IndexError. -/
def update_key_image (key : Nat) : Option ButtonSpec := BUTTONS.get? key

/-- VideoThread writes the fixed key index 14 (line 233). -/
def videoKey : Nat := 14

/-- Status lines used in concrete instantiations below. -/
def rowScenePc : String := "composite_mode_and_video_status fullscreen slides cam"

def rowScenePip : String := "composite_mode_and_video_status picture_in_picture slides cam"

def rowSceneBad : String := "composite_mode_and_video_status nosuch"

def rowPause : String := "stream_status blank pause"

def rowLive : String := "stream_status live"

def rowAudioGood : String := "audio_status \x7b\"slides\": 1, \"cam\": 0\x7d"

def rowAudioLit : String := "audio_status AUDIO_STATUS: \x7b\"slides\": 1, \"cam\": 0\x7d"

/-- The state after RecvThread processes rowPause from the initial state. -/
def stPause : Sel := recvOut (recvStep initSel rowPause)

/-- Poll outcome where only the update button at index 9 has exit status
zero. -/
def outcomeYk : Fin 15 → Bool := fun i => i == (9 : Fin 15)

/-- Poll outcome where every predicate has nonzero exit status. -/
def outcomeNone : Fin 15 → Bool := fun _ => false

lemma buttons_length : BUTTONS.length = 15 := by decide

lemma setSel_apply (st : Sel) (i : Fin 15) (b : Bool) (j : Fin 15) :
    setSel st i b j = if j = i then b else st j := rfl

lemma sceneRegistry_scene : ∀ e ∈ sceneRegistry, sceneIdx e.2 = true := by decide

lemma streamRegistry_stream : ∀ e ∈ streamRegistry, streamIdx e.2 = true := by decide

lemma audioRegistry_eq : audioRegistry = [("slides", 5), ("cam", 6)] := by decide

lemma updateRegistry_eq : updateRegistry = [9, 14] := by decide

lemma sceneLookup_scene {args : List String} {i : Fin 15}
    (h : sceneLookup args = some i) : sceneIdx i = true := by
  unfold sceneLookup at h
  cases hf : sceneRegistry.find? (fun e => e.1 == args) with
  | none => rw [hf] at h; exact absurd h (by simp)
  | some e =>
    rw [hf] at h
    have he : e ∈ sceneRegistry := List.mem_of_find?_eq_some hf
    have : e.2 = i := by simpa using h
    rw [← this]
    exact sceneRegistry_scene e he

lemma streamLookup_stream {key : String × Bool} {i : Fin 15}
    (h : streamLookup key = some i) : streamIdx i = true := by
  unfold streamLookup at h
  cases hf : streamRegistry.find? (fun e => e.1 == key) with
  | none => rw [hf] at h; exact absurd h (by simp)
  | some e =>
    rw [hf] at h
    have he : e ∈ streamRegistry := List.mem_of_find?_eq_some hf
    have : e.2 = i := by simpa using h
    rw [← this]
    exact streamRegistry_stream e he

lemma compositeApply_apply (st : Sel) (args : List String) (i : Fin 15) :
    compositeApply st args i =
      if sceneIdx i = true then
        (if sceneLookup args = some i then true else false)
      else st i := by
  unfold compositeApply
  cases hl : sceneLookup args with
  | none =>
    show clearScenes st i = _
    unfold clearScenes
    by_cases hs : sceneIdx i = true <;> simp [hs]
  | some j =>
    show setSel (clearScenes st) j true i = _
    rw [setSel_apply]
    by_cases hij : i = j
    · subst hij
      rw [if_pos rfl, if_pos (sceneLookup_scene hl)]
      simp
    · rw [if_neg hij]
      unfold clearScenes
      have hji : ¬ j = i := fun hc => hij hc.symm
      by_cases hs : sceneIdx i = true <;> simp [hs, hji]

lemma streamSelect_apply (st : Sel) (key : String × Bool) (i : Fin 15) :
    streamSelect st key i =
      if streamIdx i = true then
        (if streamLookup key = some i then true else false)
      else st i := by
  unfold streamSelect
  cases hl : streamLookup key with
  | none =>
    show clearStreams st i = _
    unfold clearStreams
    by_cases hs : streamIdx i = true <;> simp [hs]
  | some j =>
    show setSel (clearStreams st) j true i = _
    rw [setSel_apply]
    by_cases hij : i = j
    · subst hij
      rw [if_pos rfl, if_pos (streamLookup_stream hl)]
      simp
    · rw [if_neg hij]
      unfold clearStreams
      have hji : ¬ j = i := fun hc => hij hc.symm
      by_cases hs : streamIdx i = true <;> simp [hs, hji]

lemma recvStep_composite (st : Sel) (row : String)
    (h : (splitSpace row).headD "" = "composite_mode_and_video_status") :
    recvStep st row = .ok (compositeApply st (splitSpace row).tail) := by
  unfold recvStep
  rw [if_pos h]

lemma recvStep_stream (st : Sel) (row : String)
    (h : (splitSpace row).headD "" = "stream_status") :
    recvStep st row = streamApply st (splitSpace row) := by
  unfold recvStep
  rw [if_neg (by rw [h]; decide), if_pos h]

lemma recvStep_audio (st : Sel) (row : String)
    (h : (splitSpace row).headD "" = "audio_status") :
    recvStep st row = audioApply st (row.drop 13) := by
  unfold recvStep
  rw [if_neg (by rw [h]; decide), if_neg (by rw [h]; decide), if_pos h]

lemma recvStep_other (st : Sel) (row : String)
    (h1 : ¬ (splitSpace row).headD "" = "composite_mode_and_video_status")
    (h2 : ¬ (splitSpace row).headD "" = "stream_status")
    (h3 : ¬ (splitSpace row).headD "" = "audio_status") :
    recvStep st row = .ok st := by
  unfold recvStep
  rw [if_neg h1, if_neg h2, if_neg h3]

lemma ok_of_isOk (r : RecvOutcome) (h : isOk r = true) : r = .ok (recvOut r) := by
  cases r with
  | ok st => rfl
  | err st => exact absurd h (by simp [isOk])

lemma compositeApply_idem (st : Sel) (args : List String) :
    compositeApply (compositeApply st args) args = compositeApply st args := by
  funext i
  rw [compositeApply_apply, compositeApply_apply]
  by_cases hs : sceneIdx i = true <;> simp [hs]

lemma streamSelect_idem (st : Sel) (key : String × Bool) :
    streamSelect (streamSelect st key) key = streamSelect st key := by
  funext i
  rw [streamSelect_apply, streamSelect_apply]
  by_cases hs : streamIdx i = true <;> simp [hs]

lemma audioApply_idem (st st2 : Sel) (payload : String)
    (h : audioApply st payload = .ok st2) : audioApply st2 payload = .ok st2 := by
  cases hp : jsonLoadsFlat payload with
  | none =>
    unfold audioApply at h
    rw [hp] at h
    exact absurd h (by simp)
  | some p =>
    unfold audioApply at h ⊢
    rw [hp] at h ⊢
    rw [audioRegistry_eq] at h ⊢
    cases h1 : dictGet p "slides" with
    | none => simp [audioAssign, h1] at h
    | some v1 =>
      cases h2 : dictGet p "cam" with
      | none => simp [audioAssign, h1, h2] at h
      | some v2 =>
        simp only [audioAssign, h1, h2] at h ⊢
        have hst : setSel (setSel st 5 (v1 == 1)) 6 (v2 == 1) = st2 := by
          simpa using h
        rw [← hst]
        congr 1
        funext i
        by_cases hi6 : i = (6 : Fin 15)
        · subst hi6; simp [setSel]
        · by_cases hi5 : i = (5 : Fin 15)
          · subst hi5
            simp [setSel, hi6]
          · simp [setSel, hi5, hi6]

lemma tickStep_eq (st : Sel) (o : Fin 15 → Bool) :
    tickStep st o =
      (setSel (setSel st 9 (o 9)) 14 (o 14), (o 9 != st 9) || (o 14 != st 14)) := by
  have h14 : setSel st 9 (o 9) 14 = st 14 := by
    rw [setSel_apply, if_neg (by decide)]
  unfold tickStep
  rw [updateRegistry_eq]
  simp [List.foldl, h14]

lemma tickStep_sel (st : Sel) (o : Fin 15 → Bool) :
    ∀ i ∈ updateRegistry, (tickStep st o).1 i = o i := by
  rw [updateRegistry_eq]
  intro i hi
  rw [tickStep_eq]
  rcases List.mem_cons.mp hi with h9 | hi2
  · subst h9
    show setSel (setSel st 9 (o 9)) 14 (o 14) 9 = o 9
    rw [setSel_apply, if_neg (by decide), setSel_apply, if_pos rfl]
  · have h14 : i = 14 := by simpa using hi2
    subst h14
    show setSel (setSel st 9 (o 9)) 14 (o 14) 14 = o 14
    rw [setSel_apply, if_pos rfl]

lemma tickStep_redraw (st : Sel) (o : Fin 15 → Bool) :
    (tickStep st o).2 = true ↔ ∃ i ∈ updateRegistry, o i ≠ st i := by
  rw [tickStep_eq, updateRegistry_eq]
  simp only [Bool.or_eq_true, bne_iff_ne, ne_eq, List.mem_cons,
    List.not_mem_nil, or_false]
  constructor
  · rintro (h | h)
    · exact ⟨9, Or.inl rfl, h⟩
    · exact ⟨14, Or.inr rfl, h⟩
  · rintro ⟨i, (rfl | rfl), h⟩
    · exact Or.inl h
    · exact Or.inr h

lemma tickRun_flips (b : Fin 15) (hb : b ∈ updateRegistry)
    (os : List (Fin 15 → Bool)) (st : Sel)
    (hconst : ∀ o2 ∈ os, ∀ i ∈ updateRegistry, ¬ i = b → o2 i = st i) :
    (tickRun st os).2 = flipCount (st b) (os.map fun o2 => o2 b) := by
  induction os generalizing st with
  | nil => rfl
  | cons o os ih =>
    have hredraw : (tickStep st o).2 = true ↔ o b ≠ st b := by
      rw [tickStep_redraw]
      constructor
      · rintro ⟨i, hi, hne⟩
        by_cases hib : i = b
        · subst hib; exact hne
        · exact absurd (hconst o (List.mem_cons_self o os) i hi hib) hne
      · intro h; exact ⟨b, hb, h⟩
    have hstate : ∀ i ∈ updateRegistry, (tickStep st o).1 i = o i := tickStep_sel st o
    have hconst2 : ∀ o2 ∈ os, ∀ i ∈ updateRegistry, ¬ i = b →
        o2 i = (tickStep st o).1 i := by
      intro o2 ho2 i hi hib
      rw [hstate i hi, hconst o (List.mem_cons_self o os) i hi hib]
      exact hconst o2 (List.mem_cons_of_mem o ho2) i hi hib
    show (if (tickStep st o).2 then 1 else 0) + (tickRun (tickStep st o).1 os).2 = _
    rw [ih (tickStep st o).1 hconst2, hstate b hb]
    show _ = (if o b = st b then 0 else 1) + flipCount (o b) (os.map fun o2 => o2 b)
    congr 1
    by_cases h : o b = st b
    · rw [if_pos h, if_neg]
      intro hc
      exact absurd (hredraw.mp hc) (by simp [h])
    · rw [if_neg h, if_pos (hredraw.mpr h)]

/-- C1: after RecvThread processes any composite_mode_and_video_status line,
a scene button is selected exactly when it is the one registered for the
line's (mode, inputs) tuple — so at most one scene button is selected, the
selection depends only on this most recent line, and exactly one scene
button is selected whenever the tuple is recognized. -/
theorem scene_status_single_selection (st : Sel) (row : String)
    (h : (splitSpace row).headD "" = "composite_mode_and_video_status") :
    ∃ st2, recvStep st row = .ok st2 ∧
      (∀ i : Fin 15, sceneIdx i = true →
        (st2 i = true ↔ sceneLookup (splitSpace row).tail = some i)) ∧
      ((sceneLookup (splitSpace row).tail).isSome = true →
        ∃! i : Fin 15, sceneIdx i = true ∧ st2 i = true) := by
  refine ⟨compositeApply st (splitSpace row).tail, recvStep_composite st row h, ?_, ?_⟩
  · intro i hi
    rw [compositeApply_apply, if_pos hi]
    by_cases hl : sceneLookup (splitSpace row).tail = some i <;> simp [hl]
  · intro hsome
    obtain ⟨i0, hi0⟩ := Option.isSome_iff_exists.mp hsome
    refine ⟨i0, ⟨sceneLookup_scene hi0, ?_⟩, ?_⟩
    · rw [compositeApply_apply, if_pos (sceneLookup_scene hi0), if_pos hi0]
    · rintro j ⟨hjs, hjt⟩
      rw [compositeApply_apply, if_pos hjs] at hjt
      by_cases hl : sceneLookup (splitSpace row).tail = some j
      · exact Option.some.inj (hl.symm.trans hi0)
      · rw [if_neg hl] at hjt
        exact absurd hjt (by simp)

/-- Witness for C1 at the concrete line selecting the PC FULL scene. -/
theorem scene_status_single_selection_witness :
    ∃ st2, recvStep initSel rowScenePc = .ok st2 ∧
      (∀ i : Fin 15, sceneIdx i = true →
        (st2 i = true ↔ sceneLookup (splitSpace rowScenePc).tail = some i)) ∧
      ((sceneLookup (splitSpace rowScenePc).tail).isSome = true →
        ∃! i : Fin 15, sceneIdx i = true ∧ st2 i = true) :=
  scene_status_single_selection initSel rowScenePc (by decide)

/-- C2 counterexample: reprocessing `stream_status blank pause` from the
state it already produced leaves every selected flag unchanged, yet
RecvThread still redraws all 15 keys (there is no change detection on this
path), refuting the no-redraw part of the claim. -/
theorem recv_no_op_line_still_redraws_counterexample :
    (∀ i : Fin 15, recvOut (recvStep stPause rowPause) i = stPause i) ∧
    ¬ recvLineRedraw 15 stPause rowPause = [] := by decide

/-- C2 amended: reasserting the same state line is idempotent for the button
state (a second processing of a successfully processed line reproduces the
same state), but RecvThread issues a full redraw of every key after every
processed line regardless of whether anything changed. -/
theorem recv_reassert_idempotent_state_but_always_redraws
    (st st2 : Sel) (row : String) (kc : Nat)
    (h : recvStep st row = .ok st2) :
    recvStep st2 row = .ok st2 ∧ recvLineRedraw kc st row = List.range kc := by
  constructor
  · by_cases h1 : (splitSpace row).headD "" = "composite_mode_and_video_status"
    · rw [recvStep_composite st row h1] at h
      injection h with hx
      rw [recvStep_composite st2 row h1, ← hx, compositeApply_idem]
    · by_cases h2 : (splitSpace row).headD "" = "stream_status"
      · rw [recvStep_stream st row h2] at h
        rw [recvStep_stream st2 row h2]
        unfold streamApply at h ⊢
        by_cases hl : 2 ≤ (splitSpace row).length
        · rw [if_pos hl] at h ⊢
          injection h with hx
          rw [← hx, streamSelect_idem]
        · rw [if_neg hl] at h
          exact absurd h (by simp)
      · by_cases h3 : (splitSpace row).headD "" = "audio_status"
        · rw [recvStep_audio st row h3] at h
          rw [recvStep_audio st2 row h3]
          exact audioApply_idem st st2 (row.drop 13) h
        · rw [recvStep_other st row h1 h2 h3] at h
          rw [recvStep_other st2 row h1 h2 h3]
  · unfold recvLineRedraw
    rw [h]

/-- Witness for the amended C2 at the concrete pause line. -/
theorem recv_reassert_idempotent_state_but_always_redraws_witness :
    recvStep stPause rowPause = .ok stPause ∧
    recvLineRedraw 15 initSel rowPause = List.range 15 :=
  recv_reassert_idempotent_state_but_always_redraws initSel stPause rowPause 15
    (ok_of_isOk (recvStep initSel rowPause) (by decide))

/-- C3 counterexample: on the spec's literal line
`audio_status AUDIO_STATUS: {"slides": 1, "cam": 0}` the code's
json.loads(row[13:]) raises (the payload slice starts at the non-JSON token
AUDIO_STATUS:), killing RecvThread with no button selected — not the claimed
selection without error. -/
theorem audio_spec_literal_line_raises_counterexample :
    isErr (recvStep initSel rowAudioLit) = true ∧
    (∀ i : Fin 15, recvOut (recvStep initSel rowAudioLit) i = false) := by decide

/-- C3 amended: feeding the parser `audio_status {"slides": 1, "cam": 0}`
(the JSON payload at character offset 13, as row[13:] expects) selects the
PC AUDIO button (index 5, channel slides), deselects CAM AUDIO (index 6,
channel cam), changes no other button, and raises no error. -/
theorem audio_fixed_line_round_trip (st : Sel) :
    ∃ st2, recvStep st rowAudioGood = .ok st2 ∧
      st2 5 = true ∧ st2 6 = false ∧
      ∀ i : Fin 15, ¬ i = 5 → ¬ i = 6 → st2 i = st i := by
  have hd : rowAudioGood.drop 13 = "\x7b\"slides\": 1, \"cam\": 0\x7d" := by decide
  have hp : jsonLoadsFlat "\x7b\"slides\": 1, \"cam\": 0\x7d" =
      some [("slides", 1), ("cam", 0)] := by decide
  have hg1 : dictGet [("slides", (1 : Int)), ("cam", 0)] "slides" = some 1 := by decide
  have hg2 : dictGet [("slides", (1 : Int)), ("cam", 0)] "cam" = some 0 := by decide
  have hb1 : ((1 : Int) == 1) = true := by decide
  have hb2 : ((0 : Int) == 1) = false := by decide
  refine ⟨setSel (setSel st 5 true) 6 false, ?_, ?_, ?_, ?_⟩
  · rw [recvStep_audio st rowAudioGood (by decide), hd]
    unfold audioApply
    rw [hp, audioRegistry_eq]
    simp only [audioAssign, hg1, hg2, hb1, hb2]
  · rw [setSel_apply, if_neg (by decide), setSel_apply, if_pos rfl]
  · rw [setSel_apply, if_pos rfl]
  · intro i h5 h6
    rw [setSel_apply, if_neg h6, setSel_apply, if_neg h5]

/-- C4: processing `stream_status blank pause` then `stream_status live`
first selects STREAM PAUSE (index 8) with STREAM LIVE (index 3) deselected,
then selects STREAM LIVE with STREAM PAUSE deselected; after neither line
are both selected. -/
theorem stream_pause_then_live (st : Sel) :
    ∃ st1 st2,
      recvStep st rowPause = .ok st1 ∧
      recvStep st1 rowLive = .ok st2 ∧
      st1 8 = true ∧ st1 3 = false ∧
      st2 3 = true ∧ st2 8 = false ∧
      ¬(st1 3 = true ∧ st1 8 = true) ∧ ¬(st2 3 = true ∧ st2 8 = true) := by
  have e1 : splitSpace rowPause = ["stream_status", "blank", "pause"] := by decide
  have e2 : splitSpace rowLive = ["stream_status", "live"] := by decide
  have hl1 : streamLookup ("pause", true) = some 8 := by decide
  have hl2 : streamLookup ("live", false) = some 3 := by decide
  have hk1 : ((["stream_status", "blank", "pause"] : List String).getLastD "",
      (["stream_status", "blank", "pause"] : List String).getD 1 "" == "blank") =
      ("pause", true) := by decide
  have hk2 : ((["stream_status", "live"] : List String).getLastD "",
      (["stream_status", "live"] : List String).getD 1 "" == "blank") =
      ("live", false) := by decide
  have hr1 : recvStep st rowPause = .ok (streamSelect st ("pause", true)) := by
    rw [recvStep_stream st rowPause (by decide), e1]
    unfold streamApply
    rw [if_pos (by decide), hk1]
  have hr2 : recvStep (streamSelect st ("pause", true)) rowLive =
      .ok (streamSelect (streamSelect st ("pause", true)) ("live", false)) := by
    rw [recvStep_stream (streamSelect st ("pause", true)) rowLive (by decide), e2]
    unfold streamApply
    rw [if_pos (by decide), hk2]
  have hv1 : streamSelect st ("pause", true) 8 = true := by
    rw [streamSelect_apply, if_pos (by decide : streamIdx 8 = true), if_pos hl1]
  have hv2 : streamSelect st ("pause", true) 3 = false := by
    rw [streamSelect_apply, if_pos (by decide : streamIdx 3 = true),
      if_neg (by rw [hl1]; decide)]
  have hv3 : streamSelect (streamSelect st ("pause", true)) ("live", false) 3 = true := by
    rw [streamSelect_apply, if_pos (by decide : streamIdx 3 = true), if_pos hl2]
  have hv4 : streamSelect (streamSelect st ("pause", true)) ("live", false) 8 = false := by
    rw [streamSelect_apply, if_pos (by decide : streamIdx 8 = true),
      if_neg (by rw [hl2]; decide)]
  exact ⟨streamSelect st ("pause", true),
    streamSelect (streamSelect st ("pause", true)) ("live", false),
    hr1, hr2, hv1, hv2, hv3, hv4, by simp [hv2], by simp [hv4]⟩

/-- C5 counterexample: RecvThread's own processing step changes a selected
flag in place (button 0 goes from false to true), refuting the claim that
adapters never mutate Button.selected. -/
theorem adapter_step_changes_flag_counterexample :
    recvOut (recvStep initSel rowScenePc) 0 = true ∧ initSel 0 = false := by decide

/-- C5 amended: the source adapters mutate Button.selected directly — the
status-socket adapter's processing of a recognized composite line itself
flips the matched scene button's flag from false to true; no StateStore or
render-path indirection exists in the code. -/
theorem adapter_mutates_selected_directly (st : Sel) (row : String) (i : Fin 15)
    (h : (splitSpace row).headD "" = "composite_mode_and_video_status")
    (h2 : sceneLookup (splitSpace row).tail = some i)
    (h3 : st i = false) :
    ∃ st2, recvStep st row = .ok st2 ∧ st2 i = true ∧ ¬ st2 i = st i := by
  refine ⟨_, recvStep_composite st row h, ?_, ?_⟩
  · rw [compositeApply_apply, if_pos (sceneLookup_scene h2), if_pos h2]
  · rw [compositeApply_apply, if_pos (sceneLookup_scene h2), if_pos h2, h3]
    simp

/-- Witness for the amended C5 at the Picture-in-Picture line (index 2). -/
theorem adapter_mutates_selected_directly_witness :
    ∃ st2, recvStep initSel rowScenePip = .ok st2 ∧
      st2 2 = true ∧ ¬ st2 2 = initSel 2 :=
  adapter_mutates_selected_directly initSel rowScenePip 2
    (by decide) (by decide) (by decide)

/-- C6: evaluation of the code at malformed lines: a bare `stream_status`
(wrong token count, data[1] raises IndexError) and `audio_status nonsense`
(non-JSON payload, json.loads raises) both end in an uncaught exception —
the line is not dropped and RecvThread does not continue. -/
theorem malformed_status_lines_kill_recv_thread :
    isErr (recvStep initSel "stream_status") = true ∧
    isErr (recvStep initSel "audio_status nonsense") = true := by decide

/-- C7: each TickThread poll sets every update button's selected flag to
exactly its predicate's exit-status-zero outcome, issues a redraw pass iff
some update button's outcome differs from its previous flag, and over a run
in which only button b's outcome varies the number of redraw passes equals
the number of flips of b's outcome. -/
theorem tick_predicate_selection_and_redraws
    (st : Sel) (o : Fin 15 → Bool) (b : Fin 15) (os : List (Fin 15 → Bool))
    (hb : b ∈ updateRegistry)
    (hconst : ∀ o2 ∈ os, ∀ i ∈ updateRegistry, ¬ i = b → o2 i = st i) :
    (∀ i ∈ updateRegistry, (tickStep st o).1 i = o i) ∧
    ((tickStep st o).2 = true ↔ ∃ i ∈ updateRegistry, o i ≠ st i) ∧
    (tickRun st os).2 = flipCount (st b) (os.map fun o2 => o2 b) :=
  ⟨tickStep_sel st o, tickStep_redraw st o, tickRun_flips b hb os st hconst⟩

/-- Witness for C7: the YK button (index 9) toggling true then false over
two polls yields exactly two redraw passes. -/
theorem tick_predicate_selection_and_redraws_witness :
    (∀ i ∈ updateRegistry, (tickStep initSel outcomeYk).1 i = outcomeYk i) ∧
    ((tickStep initSel outcomeYk).2 = true ↔
      ∃ i ∈ updateRegistry, outcomeYk i ≠ initSel i) ∧
    (tickRun initSel [outcomeYk, outcomeNone]).2 =
      flipCount (initSel 9) ([outcomeYk, outcomeNone].map fun o2 => o2 9) :=
  tick_predicate_selection_and_redraws initSel outcomeYk 9 [outcomeYk, outcomeNone]
    (by decide)
    (by
      intro o2 ho2 i hi hib
      rcases List.mem_cons.mp ho2 with rfl | ho2
      · rw [updateRegistry_eq] at hi
        rcases List.mem_cons.mp hi with rfl | hi2
        · exact absurd rfl hib
        · have h14 : i = 14 := by simpa using hi2
          subst h14
          decide
      · rcases List.mem_cons.mp ho2 with rfl | h0
        · rfl
        · exact absurd h0 (List.not_mem_nil o2))

/-- C8: a composite_mode_and_video_status line whose tuple matches no
registered scene button leaves every scene button deselected. -/
theorem scene_status_unrecognized_selects_none (st : Sel) (row : String)
    (h : (splitSpace row).headD "" = "composite_mode_and_video_status")
    (h2 : sceneLookup (splitSpace row).tail = none) :
    ∃ st2, recvStep st row = .ok st2 ∧
      ∀ i : Fin 15, sceneIdx i = true → st2 i = false := by
  refine ⟨_, recvStep_composite st row h, ?_⟩
  intro i hi
  rw [compositeApply_apply, if_pos hi, h2]
  simp

/-- Witness for C8 at a line with an unregistered tuple. -/
theorem scene_status_unrecognized_selects_none_witness :
    ∃ st2, recvStep initSel rowSceneBad = .ok st2 ∧
      ∀ i : Fin 15, sceneIdx i = true → st2 i = false :=
  scene_status_unrecognized_selects_none initSel rowSceneBad (by decide) (by decide)

/-- C9: when the raw i3-msg output equals the previous poll's output,
I3Thread's iteration leaves every selected flag unchanged, issues no redraw
and keeps last_json. -/
theorem workspace_poll_short_circuit (lastJson : Option String) (st : Sel)
    (raw : String) (parsed : List WsEntry) (h : lastJson = some raw) :
    i3Step lastJson st raw parsed = (st, false, lastJson) := by
  unfold i3Step
  rw [if_pos h.symm]

/-- Witness for C9 at a concrete repeated raw output. -/
theorem workspace_poll_short_circuit_witness :
    i3Step (some "[]") initSel "[]" [⟨7, true⟩] = (initSel, false, some "[]") :=
  workspace_poll_short_circuit (some "[]") initSel "[]" [⟨7, true⟩] rfl

/-- C10: BUTTONS has exactly 15 entries, update_key_image's BUTTONS[key]
access is defined exactly for key < 15, the full-panel redraw over
range(key_count) stays in bounds iff key_count ≤ 15, and the video
adapter's fixed key 14 is in bounds. -/
theorem button_key_index_bounds :
    BUTTONS.length = 15 ∧
    (∀ key : Nat, (update_key_image key).isSome = true ↔ key < 15) ∧
    (∀ kc : Nat, (∀ k ∈ List.range kc, k < BUTTONS.length) ↔ kc ≤ 15) ∧
    videoKey < BUTTONS.length := by
  refine ⟨by decide, ?_, ?_, by decide⟩
  · intro key
    unfold update_key_image
    constructor
    · intro hs
      by_contra hk
      rw [List.get?_eq_none.mpr (by rw [buttons_length]; omega)] at hs
      simp at hs
    · intro hk
      rw [List.get?_eq_get (by rw [buttons_length]; omega)]
      rfl
  · intro kc
    constructor
    · intro hall
      by_contra hk
      have h15 : 15 ∈ List.range kc := List.mem_range.mpr (by omega)
      have hlt := hall 15 h15
      rw [buttons_length] at hlt
      omega
    · intro hk k hkmem
      have hkm := List.mem_range.mp hkmem
      rw [buttons_length]
      omega

end Voctodeck
